import Mathlib

/-!
Shallow embedding of the CHIP-8 interpreter implemented in `src/chip8.cpp`
(class `Chip8` declared in `include/chip8.hpp`).

Machine words are modelled as `Nat` with explicit reductions where the C++
types wrap: `uint8_t` storage is read through `% 256`, `uint16_t` storage
through `% 65536`.  Bit-mask decoding of the 16-bit opcode is expressed with
division and remainder, which agree with the C++ masks on 16-bit values:
`op & 0xF000 = (op / 4096) * 4096`, `(op & 0x0F00) >> 8 = op / 256 % 16`,
`(op & 0x00F0) >> 4 = op / 16 % 16`, `op & 0x000F = op % 16`,
`op & 0x00FF = op % 256`, `op & 0x0FFF = op % 4096`, and for a sprite byte
`b < 256` and a column `c < 8`, `b & (0x80 >> c) ≠ 0 ↔ b / 2^(7-c) % 2 = 1`.

The host-facing RNG call `rand() % (UINT8_MAX + 1)` in opcode `CXNN` is made
explicit: the execution functions take the drawn random byte as an argument.
-/

/-- The machine state: the fields of the C++ `Chip8` class.
`memory` holds 4096 bytes (`uint8_t`), `V` the sixteen 8-bit registers,
`stack` the sixteen 16-bit return addresses, `pixels` the 64×32 = 2048
framebuffer booleans in row-major order, `keys_pressed` the 16 key states. -/
structure Chip8 where
  memory : Nat → Nat
  V : Nat → Nat
  stack : Nat → Nat
  sp : Nat
  pc : Nat
  opcode : Nat
  I : Nat
  delay_timer : Nat
  sound_timer : Nat
  old_instructions : Bool
  draw_flag : Bool
  pixels : Nat → Bool
  keys_pressed : Nat → Bool

/-- Pointwise update of a `Nat`-valued store (array write `f[i] = v`). -/
def upd (f : Nat → Nat) (i v : Nat) : Nat → Nat :=
  fun j => if j = i then v else f j

/-- Pointwise update of a `Bool`-valued store. -/
def updB (f : Nat → Bool) (i : Nat) (v : Bool) : Nat → Bool :=
  fun j => if j = i then v else f j

/-- Read a byte of `memory`: `uint8_t` storage is always below 256. -/
def mem8 (s : Chip8) (a : Nat) : Nat := s.memory a % 256

/-- Read a register: `uint8_t` storage is always below 256. -/
def reg8 (s : Chip8) (x : Nat) : Nat := s.V x % 256

/-- Read a stack slot: `uint16_t` storage is always below 65536. -/
def stk16 (s : Chip8) (i : Nat) : Nat := s.stack i % 65536

/-- Read the index register as a `uint16_t` value. -/
def I16 (s : Chip8) : Nat := s.I % 65536

/-- Big-endian fetch: `opcode = (memory[pc] << 8) | memory[pc + 1]`. -/
def fetchOp (s : Chip8) : Nat := mem8 s s.pc * 256 + mem8 s (s.pc + 1)

/-- `sprite_row & (0x80 >> col)` as a boolean: bit `7 - c` of the byte. -/
def spriteBit (spr c : Nat) : Bool := spr / 2 ^ (7 - c) % 2 = 1

/-- `(V[X] + col + (V[Y] + row) * 64) % pixels.size()` — the flat framebuffer
index targeted by sprite cell `(r, c)`; `pixels.size() = 2048`. -/
def pixelLoc (vx vy r c : Nat) : Nat := (vx + c + (vy + r) * 64) % 2048

/-- One iteration of the inner (column) loop of opcode `DXYN`:
if the sprite bit is set, record a collision in `VF` when the target pixel is
already lit, then XOR the pixel. -/
def drawCol (X Y r spr : Nat) (s : Chip8) (c : Nat) : Chip8 :=
  if spriteBit spr c then
    let loc := pixelLoc (reg8 s X) (reg8 s Y) r c
    let s1 := if s.pixels loc then { s with V := upd s.V 15 1 } else s
    { s1 with pixels := updB s1.pixels loc (!s1.pixels loc) }
  else s

/-- One iteration of the outer (row) loop of opcode `DXYN`: read the sprite
byte `memory[I + row]`, then run the eight column iterations. -/
def drawRow (X Y : Nat) (s : Chip8) (r : Nat) : Chip8 :=
  let spr := mem8 s (s.I + r)
  (List.range 8).foldl (drawCol X Y r spr) s

/-- The full double loop of opcode `DXYN` (after `V[0xF] = 0`). -/
def drawSprite (X Y n : Nat) (s : Chip8) : Chip8 :=
  (List.range n).foldl (drawRow X Y) s

/-- The key-scanning loop of opcode `FX0A`: for `i = 0..15`, if key `i` is
pressed, store `i` in `V[X]` and set the `key_pressed` flag. -/
def keyScan (X : Nat) (s : Chip8) : Chip8 × Bool :=
  (List.range 16).foldl
    (fun p i =>
      if p.1.keys_pressed i then ({ p.1 with V := upd p.1.V X i }, true) else p)
    (s, false)

/-- `Chip8::executeNextInstruction`, with the random byte drawn by `CXNN`
passed in as `randv`.  Mirrors the nested `switch` dispatch of the source;
unknown opcodes only print a diagnostic, so they leave the state unchanged
beyond the `opcode` latch. -/
def executeNextInstruction (randv : Nat) (s0 : Chip8) : Chip8 :=
  let op := fetchOp s0
  let s := { s0 with opcode := op }
  let X := op / 256 % 16
  let Y := op / 16 % 16
  let N := op % 16
  let NN := op % 256
  let NNN := op % 4096
  let top := op / 4096
  if top = 0 then
    if op = 0x00E0 then
      { s with pixels := fun _ => false, draw_flag := true,
               pc := (s.pc + 2) % 65536 }
    else if op = 0x00EE then
      let sp1 := (s.sp + 255) % 256
      { s with sp := sp1, pc := (stk16 s sp1 + 2) % 65536 }
    else s
  else if top = 1 then
    { s with pc := NNN }
  else if top = 2 then
    { s with stack := upd s.stack s.sp s.pc, sp := (s.sp + 1) % 256, pc := NNN }
  else if top = 3 then
    if reg8 s X = NN then { s with pc := (s.pc + 4) % 65536 }
    else { s with pc := (s.pc + 2) % 65536 }
  else if top = 4 then
    if reg8 s X ≠ NN then { s with pc := (s.pc + 4) % 65536 }
    else { s with pc := (s.pc + 2) % 65536 }
  else if top = 5 then
    if reg8 s X = reg8 s Y then { s with pc := (s.pc + 4) % 65536 }
    else { s with pc := (s.pc + 2) % 65536 }
  else if top = 6 then
    { s with V := upd s.V X NN, pc := (s.pc + 2) % 65536 }
  else if top = 7 then
    { s with V := upd s.V X ((reg8 s X + NN) % 256), pc := (s.pc + 2) % 65536 }
  else if top = 8 then
    if N = 0 then
      { s with V := upd s.V X (reg8 s Y), pc := (s.pc + 2) % 65536 }
    else if N = 1 then
      { s with V := upd s.V X (Nat.lor (reg8 s X) (reg8 s Y)),
               pc := (s.pc + 2) % 65536 }
    else if N = 2 then
      { s with V := upd s.V X (Nat.land (reg8 s X) (reg8 s Y)),
               pc := (s.pc + 2) % 65536 }
    else if N = 3 then
      { s with V := upd s.V X (Nat.xor (reg8 s X) (reg8 s Y)),
               pc := (s.pc + 2) % 65536 }
    else if N = 4 then
      let s1 := { s with V := upd s.V 15 (if reg8 s X + reg8 s Y > 255 then 1 else 0) }
      { s1 with V := upd s1.V X ((reg8 s1 X + reg8 s1 Y) % 256),
                pc := (s1.pc + 2) % 65536 }
    else if N = 5 then
      let s1 := { s with V := upd s.V 15 (if reg8 s X < reg8 s Y then 0 else 1) }
      { s1 with V := upd s1.V X ((reg8 s1 X + 256 - reg8 s1 Y) % 256),
                pc := (s1.pc + 2) % 65536 }
    else if N = 6 then
      let s1 := { s with V := upd s.V X (reg8 s Y / 2) }
      { s1 with V := upd s1.V 15 (reg8 s1 Y % 2), pc := (s1.pc + 2) % 65536 }
    else if N = 7 then
      let s1 := { s with V := upd s.V 15 (if reg8 s X > reg8 s Y then 1 else 0) }
      { s1 with V := upd s1.V X ((reg8 s1 Y + 256 - reg8 s1 X) % 256),
                pc := (s1.pc + 2) % 65536 }
    else if N = 14 then
      let s1 := { s with V := upd s.V X (reg8 s Y * 2 % 256) }
      { s1 with V := upd s1.V 15 (reg8 s1 Y / 128), pc := (s1.pc + 2) % 65536 }
    else s
  else if top = 9 then
    if reg8 s X ≠ reg8 s Y then { s with pc := (s.pc + 4) % 65536 }
    else { s with pc := (s.pc + 2) % 65536 }
  else if top = 10 then
    { s with I := NNN, pc := (s.pc + 2) % 65536 }
  else if top = 11 then
    { s with pc := (NNN + reg8 s 0) % 65536 }
  else if top = 12 then
    { s with V := upd s.V X (Nat.land (randv % 256) NN), pc := (s.pc + 2) % 65536 }
  else if top = 13 then
    let s1 := { s with V := upd s.V 15 0 }
    let s2 := drawSprite X Y N s1
    { s2 with draw_flag := true, pc := (s2.pc + 2) % 65536 }
  else if top = 14 then
    if NN = 0x9E then
      if s.keys_pressed (reg8 s X) = true then { s with pc := (s.pc + 4) % 65536 }
      else { s with pc := (s.pc + 2) % 65536 }
    else if NN = 0xA1 then
      if s.keys_pressed (reg8 s X) = false then { s with pc := (s.pc + 4) % 65536 }
      else { s with pc := (s.pc + 2) % 65536 }
    else s
  else
    if NN = 0x07 then
      { s with V := upd s.V X (s.delay_timer % 256), pc := (s.pc + 2) % 65536 }
    else if NN = 0x0A then
      let scan := keyScan X s
      if scan.2 = true then { scan.1 with pc := (scan.1.pc + 2) % 65536 }
      else scan.1
    else if NN = 0x15 then
      { s with delay_timer := reg8 s X, pc := (s.pc + 2) % 65536 }
    else if NN = 0x18 then
      { s with sound_timer := reg8 s X, pc := (s.pc + 2) % 65536 }
    else if NN = 0x1E then
      { s with I := (I16 s + reg8 s X) % 65536, pc := (s.pc + 2) % 65536 }
    else if NN = 0x29 then
      { s with I := reg8 s X * 5, pc := (s.pc + 2) % 65536 }
    else if NN = 0x33 then
      let m1 := upd s.memory (I16 s) (reg8 s X / 100)
      let m2 := upd m1 (I16 s + 1) (reg8 s X / 10 % 10)
      let m3 := upd m2 (I16 s + 2) (reg8 s X % 10)
      { s with memory := m3, pc := (s.pc + 2) % 65536 }
    else if NN = 0x55 then
      let s1 := (List.range (X + 1)).foldl
        (fun t i => { t with memory := upd t.memory (I16 t + i) (reg8 t i) }) s
      { s1 with I := (I16 s1 + X + 1) % 65536, pc := (s1.pc + 2) % 65536 }
    else if NN = 0x65 then
      let s1 := (List.range (X + 1)).foldl
        (fun t i => { t with V := upd t.V i (mem8 t (I16 t + i)) }) s
      { s1 with I := (I16 s1 + X + 1) % 65536, pc := (s1.pc + 2) % 65536 }
    else s

/-- `Chip8::decrementTimers`: each timer decrements when positive. -/
def decrementTimers (s : Chip8) : Chip8 :=
  let s1 := if s.delay_timer > 0 then { s with delay_timer := s.delay_timer - 1 } else s
  if s1.sound_timer > 0 then { s1 with sound_timer := s1.sound_timer - 1 } else s1

/-- `Chip8::step`: execute one instruction, then decrement the timers. -/
def step (randv : Nat) (s : Chip8) : Chip8 :=
  decrementTimers (executeNextInstruction randv s)

/-- `Chip8::ROM_SIZE_MAX = MEM_SIZE - PROGRAM_START = 4096 - 512`. -/
def ROM_SIZE_MAX : Nat := 4096 - 512

/-- The copy loop of `Chip8::load`: `memory[i + PROGRAM_START] = rom[i]`. -/
def writeROM : (Nat → Nat) → Nat → List Nat → (Nat → Nat)
  | m, _, [] => m
  | m, i, b :: rest => writeROM (upd m i b) (i + 1) rest

/-- `Chip8::load`: reject a ROM larger than `ROM_SIZE_MAX` (the C++ code
throws before touching `memory`, modelled by returning the state unchanged
with `false`); otherwise copy the bytes to addresses `0x200` onward. -/
def load (s : Chip8) (rom : List Nat) : Chip8 × Bool :=
  if rom.length > ROM_SIZE_MAX then (s, false)
  else ({ s with memory := writeROM s.memory 512 rom }, true)

/-- A baseline machine state: everything zeroed, `pc` at `PROGRAM_START`,
as established by the `Chip8` constructor (font data omitted; the concrete
states below set the memory cells they need explicitly). -/
def zeroChip : Chip8 :=
  { memory := fun _ => 0, V := fun _ => 0, stack := fun _ => 0,
    sp := 0, pc := 0x200, opcode := 0, I := 0,
    delay_timer := 0, sound_timer := 0,
    old_instructions := false, draw_flag := false,
    pixels := fun _ => false, keys_pressed := fun _ => false }

/-- The opcodes that fall into one of the diagnostic `default` cases of the
dispatch `switch` in `executeNextInstruction` — branch for branch the same
case analysis, with `true` exactly at the defaults.  (Every top nibble from
`0x1` to `0xD` other than `0x8` has a non-default case for all operands.) -/
def unknownOp (op : Nat) : Bool :=
  let N := op % 16
  let NN := op % 256
  let top := op / 4096
  if top = 0 then
    if op = 0x00E0 then false else if op = 0x00EE then false else true
  else if top = 8 then
    if N = 0 then false else if N = 1 then false else if N = 2 then false
    else if N = 3 then false else if N = 4 then false else if N = 5 then false
    else if N = 6 then false else if N = 7 then false else if N = 14 then false
    else true
  else if top = 14 then
    if NN = 0x9E then false else if NN = 0xA1 then false else true
  else if top = 15 then
    if NN = 0x07 then false else if NN = 0x0A then false
    else if NN = 0x15 then false else if NN = 0x18 then false
    else if NN = 0x1E then false else if NN = 0x29 then false
    else if NN = 0x33 then false else if NN = 0x55 then false
    else if NN = 0x65 then false else true
  else false

/-- Concrete state for claim C2: opcode `8017` (so X = 0, Y = 1) at the
program counter, with `V0 = 5` and `V1 = 3` (`VY < VX`: a borrow occurs). -/
def sC2 : Chip8 :=
  { zeroChip with
    memory := upd (upd zeroChip.memory 0x200 0x80) 0x201 0x17,
    V := upd (upd zeroChip.V 0 5) 1 3 }

/-- Concrete state for claim C3: the unrecognized opcode `0123` at the
program counter. -/
def sC3 : Chip8 :=
  { zeroChip with memory := upd (upd zeroChip.memory 0x200 0x01) 0x201 0x23 }

/-- Concrete state for claim C1: opcode `D011` (draw a one-row sprite at
`(V0, V1) = (60, 0)`) with the sprite byte `0x0F` at `I = 0x300`, whose set
bits sit in columns 4–7, i.e. at x = 64..67. -/
def sC1 : Chip8 :=
  { zeroChip with
    memory := upd (upd (upd zeroChip.memory 0x200 0xD0) 0x201 0x11) 0x300 0x0F,
    V := upd zeroChip.V 0 60, I := 0x300 }

/-- Concrete state for claim C8: opcode `D011` at both `0x200` and `0x202`,
`(V0, V1) = (0, 0)`, sprite byte `0x80` at `I = 0x300` (one set bit,
targeting pixel 0), and pixel 0 lit before the first draw. -/
def sC8 : Chip8 :=
  { zeroChip with
    memory := upd (upd (upd (upd (upd zeroChip.memory
      0x200 0xD0) 0x201 0x11) 0x202 0xD0) 0x203 0x11) 0x300 0x80,
    I := 0x300,
    pixels := updB zeroChip.pixels 0 true }

/-- The index of the last key in `[0, n)` that is pressed — the value the
`FX0A` scan loop leaves in `V[X]`, since the loop overwrites `V[X]` at every
pressed key in increasing order. -/
def lastPressed (keys : Nat → Bool) : Nat → Option Nat
  | 0 => none
  | n + 1 => if keys n then some n else lastPressed keys n

/-- Concrete state for claim C5: opcode `2300` (call `0x300`) at `0x200`,
with `00EE` (return) at `0x300`. -/
def sC5 : Chip8 :=
  { zeroChip with
    memory := upd (upd (upd zeroChip.memory 0x200 0x23) 0x301 0xEE) 0x201 0 }

/-- Concrete state for claims C7/C10: opcode `F30A` at the program counter,
with keys 2 and 7 pressed. -/
def sKey : Chip8 :=
  { zeroChip with
    memory := upd (upd zeroChip.memory 0x200 0xF3) 0x201 0x0A,
    keys_pressed := fun i => i == 2 || i == 7 }

/-- Concrete state for claim C7: opcode `F30A` at the program counter and no
key pressed. -/
def sKey0 : Chip8 :=
  { zeroChip with memory := upd (upd zeroChip.memory 0x200 0xF3) 0x201 0x0A }

/-- Per-axis wraparound target described by the specification (row
`(vy + r) mod 32`, column `(vx + c) mod 64`, flattened row-major).  This
definition follows the spec's words and exists only to be compared with
`pixelLoc`, which is what the code computes. -/
def specPixelLoc (vx vy r c : Nat) : Nat :=
  ((vy + r) % 32) * 64 + (vx + c) % 64

/-- Whether some set sprite bit of row `r`, among columns `0..k-1`, targets
flat pixel index `loc`. -/
def rowHits (spr vx vy r k loc : Nat) : Bool :=
  (List.range k).any fun c =>
    spriteBit spr c && decide (pixelLoc vx vy r c = loc)

/-- Whether some set sprite bit of row `r`, among columns `0..k-1`, targets
a pixel that is lit in `px`. -/
def rowCollides (spr vx vy r k : Nat) (px : Nat → Bool) : Bool :=
  (List.range k).any fun c =>
    spriteBit spr c && px (pixelLoc vx vy r c)

/-- Whether some set bit of the `n`-row sprite at `mem[i..]` targets flat
pixel index `loc`. -/
def hits (mem : Nat → Nat) (i vx vy n loc : Nat) : Bool :=
  (List.range n).any fun r => rowHits (mem (i + r) % 256) vx vy r 8 loc

/-- Whether some set bit of the `n`-row sprite at `mem[i..]` targets a pixel
lit in `px` (the draw instruction's collision condition). -/
def collides (mem : Nat → Nat) (i vx vy n : Nat) (px : Nat → Bool) : Bool :=
  (List.range n).any fun r => rowCollides (mem (i + r) % 256) vx vy r 8 px

/-- The fields a `DXYN` draw never touches: everything except `pixels` and
`VF`. -/
abbrev drawFrame (s t : Chip8) : Prop :=
  t.memory = s.memory ∧ (∀ x, x ≠ 15 → t.V x = s.V x) ∧ t.I = s.I ∧
  t.pc = s.pc ∧ t.sp = s.sp ∧ t.stack = s.stack ∧
  t.delay_timer = s.delay_timer ∧ t.sound_timer = s.sound_timer ∧
  t.keys_pressed = s.keys_pressed ∧ t.draw_flag = s.draw_flag ∧
  t.opcode = s.opcode ∧ t.old_instructions = s.old_instructions

/-! ## Theorems -/

/-- Every `memory` read is a byte. -/
theorem mem8_lt (s : Chip8) (a : Nat) : mem8 s a < 256 :=
  Nat.mod_lt _ (by norm_num)

/-- Every register read is a byte. -/
theorem reg8_lt (s : Chip8) (x : Nat) : reg8 s x < 256 :=
  Nat.mod_lt _ (by norm_num)

/-- C6: one `step()` first executes one instruction and then applies a
saturating decrement to each timer: the timer after `step` equals the
post-instruction timer minus one when that is positive and stays `0` when it
is `0` (`Nat` truncated subtraction is exactly this saturating decrement,
so the timers never wrap below zero), and neither timer falls by more than
one beyond the instruction's own effect. -/
theorem c6_timer_saturation (r : Nat) (s : Chip8) :
    (step r s).delay_timer = (executeNextInstruction r s).delay_timer - 1 ∧
    (step r s).sound_timer = (executeNextInstruction r s).sound_timer - 1 ∧
    (executeNextInstruction r s).delay_timer ≤ (step r s).delay_timer + 1 ∧
    (executeNextInstruction r s).sound_timer ≤ (step r s).sound_timer + 1 := by
  unfold step decrementTimers
  set t := executeNextInstruction r s with ht
  by_cases hd : t.delay_timer > 0 <;> by_cases hs : t.sound_timer > 0 <;>
    simp [hd, hs] <;> omega

/-- C2 (evaluating the code at the failing input): executing `8017` with
`V0 = 5`, `V1 = 3` — so `VY < VX`, a borrow — sets `VF = 1`, although both
the claim and the source's own comment ("Set VF to 0 if a borrow occurs")
require `VF = 0`.  The difference update `VX = (VY − VX) mod 256 = 254` and
the program-counter advance do match the claim. -/
theorem c2_8XY7_flag_bug :
    (executeNextInstruction 0 sC2).V 15 = 1 ∧
    (executeNextInstruction 0 sC2).V 0 = 254 ∧
    (executeNextInstruction 0 sC2).pc = 0x202 := by
  decide

/-- C3 (counterexample): on the unrecognized opcode `0123`, `step()` leaves
the program counter at `0x200` instead of advancing it to `0x202` as the
claim states. -/
theorem c3_counterexample :
    (step 0 sC3).pc = sC3.pc ∧ (step 0 sC3).pc ≠ sC3.pc + 2 := by
  decide

/-- The copy loop writes `rom[j]` to address `i + j` and nothing else. -/
theorem writeROM_spec (rom : List Nat) :
    ∀ m i a, writeROM m i rom a =
      if i ≤ a ∧ a < i + rom.length then rom.getD (a - i) 0 else m a := by
  induction rom with
  | nil =>
    intro m i a
    simp only [writeROM, List.length_nil]
    rw [if_neg (by omega)]
  | cons b rest ih =>
    intro m i a
    rw [writeROM, ih]
    by_cases ha : a = i
    · subst ha
      rw [if_neg (by omega), if_pos (by rw [List.length_cons]; omega)]
      simp [upd]
    · by_cases hr : i + 1 ≤ a ∧ a < i + 1 + rest.length
      · rw [if_pos hr, if_pos (by rw [List.length_cons]; omega)]
        have h1 : a - i = (a - (i + 1)) + 1 := by omega
        rw [h1]
        simp
      · rw [if_neg hr, if_neg (by rw [List.length_cons]; omega), upd,
          if_neg ha]

/-- C4: `load` succeeds on any program of at most `3584` bytes, copying its
bytes verbatim to addresses `0x200` onward and leaving the rest of memory
alone — a `3584`-byte program's last byte lands at address `0xFFF` — and
fails on any longer program, returning the machine state (hence its memory)
unmodified. -/
theorem c4_load (s : Chip8) (rom : List Nat) :
    (rom.length ≤ 3584 →
      (load s rom).2 = true ∧
      ∀ a, (load s rom).1.memory a =
        if 512 ≤ a ∧ a < 512 + rom.length then rom.getD (a - 512) 0
        else s.memory a) ∧
    (rom.length = 3584 → (load s rom).1.memory 0xFFF = rom.getD 3583 0) ∧
    (rom.length > 3584 → load s rom = (s, false)) := by
  refine ⟨fun h => ?_, fun h => ?_, fun h => ?_⟩
  · rw [load, if_neg (by simp [ROM_SIZE_MAX]; omega)]
    exact ⟨rfl, fun a => writeROM_spec rom s.memory 512 a⟩
  · rw [load, if_neg (by simp [ROM_SIZE_MAX]; omega)]
    simp only [writeROM_spec rom s.memory 512 0xFFF]
    rw [if_pos (by omega)]
  · rw [load, if_pos (by simp [ROM_SIZE_MAX]; omega)]

/-- Witness for C4: a three-byte program loads successfully, with its middle
byte landing at address `0x201`, and a `3585`-byte program is rejected with
the machine unchanged. -/
theorem c4_load_witness :
    (load zeroChip [1, 2, 3]).2 = true ∧
    (load zeroChip [1, 2, 3]).1.memory 0x201 = 2 ∧
    load zeroChip (List.replicate 3585 0) = (zeroChip, false) := by
  refine ⟨((c4_load zeroChip [1, 2, 3]).1 (by norm_num)).1, ?_,
    (c4_load zeroChip (List.replicate 3585 0)).2.2
      (by simp only [List.length_replicate]; omega)⟩
  have h := ((c4_load zeroChip [1, 2, 3]).1 (by norm_num)).2 0x201
  norm_num at h
  exact h

/-- Overwriting the same cell twice keeps only the second write. -/
theorem upd_upd_same (f : Nat → Nat) (i a b : Nat) :
    upd (upd f i a) i b = upd f i b := by
  funext j; unfold upd; by_cases h : j = i <;> simp [h]

/-- `decrementTimers` only touches the two timers; in particular the program
counter is unchanged. -/
theorem decrementTimers_pc (s : Chip8) : (decrementTimers s).pc = s.pc := by
  unfold decrementTimers
  by_cases hd : s.delay_timer > 0 <;> by_cases hs : s.sound_timer > 0 <;>
    simp [hd, hs]

/-- Executing a `2NNN` call: push the current program counter, bump the stack
pointer, jump to `NNN`. -/
theorem exec_2NNN (r : Nat) (s : Chip8) (h : mem8 s s.pc / 16 = 2) :
    executeNextInstruction r s =
      { s with opcode := fetchOp s,
               stack := upd s.stack s.sp s.pc,
               sp := (s.sp + 1) % 256,
               pc := fetchOp s % 4096 } := by
  have h0 : fetchOp s / 4096 = 2 := by
    have h1 := mem8_lt s (s.pc + 1)
    unfold fetchOp
    omega
  unfold executeNextInstruction
  dsimp only
  rw [h0]
  norm_num

/-- Executing a `00EE` return: pop the stack into the program counter and
advance it past the original call. -/
theorem exec_00EE (r : Nat) (s : Chip8) (h1 : mem8 s s.pc = 0)
    (h2 : mem8 s (s.pc + 1) = 0xEE) :
    executeNextInstruction r s =
      { s with opcode := 0x00EE,
               sp := (s.sp + 255) % 256,
               pc := (stk16 s ((s.sp + 255) % 256) + 2) % 65536 } := by
  have h0 : fetchOp s = 0x00EE := by unfold fetchOp; omega
  unfold executeNextInstruction
  dsimp only
  rw [h0]
  norm_num
  rfl

/-- C5: from any state with stack pointer in `[0, 15]` and a sane 16-bit
program counter, executing the `2NNN` instruction at `pc` and then the `00EE`
instruction at `NNN` brings the program counter to `pc + 2`, the instruction
right after the call. -/
theorem c5_subroutine_round_trip (r1 r2 : Nat) (s : Chip8)
    (hsp : s.sp ≤ 15)
    (hcall : mem8 s s.pc / 16 = 2)
    (hpc : s.pc + 2 < 65536)
    (hb1 : mem8 s (fetchOp s % 4096) = 0)
    (hb2 : mem8 s (fetchOp s % 4096 + 1) = 0xEE) :
    (executeNextInstruction r2 (executeNextInstruction r1 s)).pc = s.pc + 2 := by
  rw [exec_2NNN r1 s hcall, exec_00EE r2 _ hb1 hb2]
  dsimp only
  have hidx : ((s.sp + 1) % 256 + 255) % 256 = s.sp := by omega
  rw [hidx]
  simp only [stk16, upd, eq_self_iff_true, if_true]
  omega

/-- Witness for C5 at the concrete state `sC5`. -/
theorem c5_subroutine_round_trip_witness :
    (executeNextInstruction 0 (executeNextInstruction 0 sC5)).pc = sC5.pc + 2 :=
  c5_subroutine_round_trip 0 0 sC5 (by decide) (by decide) (by decide)
    (by decide) (by decide)

/-- The `FX0A` scan loop over keys `0..n-1` ends with `V[X]` holding the last
pressed key index (nothing and no flag when none is pressed). -/
theorem keyScan_char (X : Nat) (s : Chip8) (n : Nat) :
    (List.range n).foldl
      (fun p i =>
        if p.1.keys_pressed i then ({ p.1 with V := upd p.1.V X i }, true) else p)
      (s, false) =
    (match lastPressed s.keys_pressed n with
     | none => (s, false)
     | some m => ({ s with V := upd s.V X m }, true)) := by
  induction n with
  | zero => rfl
  | succ n ih =>
    rw [List.range_succ, List.foldl_append, ih]
    have hLP : lastPressed s.keys_pressed (n + 1) =
        if s.keys_pressed n then some n else lastPressed s.keys_pressed n := rfl
    cases hl : lastPressed s.keys_pressed n with
    | none =>
      rw [hLP, hl]
      by_cases hk : s.keys_pressed n <;> simp [hk]
    | some m =>
      rw [hLP, hl]
      by_cases hk : s.keys_pressed n <;> simp [hk, upd_upd_same]

/-- If the scan found no pressed key, none of the first `n` keys is pressed. -/
theorem lastPressed_eq_none (keys : Nat → Bool) :
    ∀ n, lastPressed keys n = none → ∀ j, j < n → keys j = false := by
  intro n
  induction n with
  | zero => intro _ j hj; omega
  | succ n ih =>
    intro h j hj
    have hLP : lastPressed keys (n + 1) =
        if keys n then some n else lastPressed keys n := rfl
    rw [hLP] at h
    by_cases hk : keys n
    · simp [hk] at h
    · rcases Nat.lt_succ_iff_lt_or_eq.mp hj with h' | h'
      · exact ih (by simpa [hk] using h) j h'
      · subst h'
        simpa using hk

/-- The scan's result is a pressed key and is the largest pressed index. -/
theorem lastPressed_eq_some (keys : Nat → Bool) :
    ∀ n m, lastPressed keys n = some m →
      m < n ∧ keys m = true ∧ ∀ j, j < n → keys j = true → j ≤ m := by
  intro n
  induction n with
  | zero => intro m h; exact absurd h (by simp [lastPressed])
  | succ n ih =>
    intro m h
    have hLP : lastPressed keys (n + 1) =
        if keys n then some n else lastPressed keys n := rfl
    rw [hLP] at h
    by_cases hk : keys n
    · rw [if_pos hk] at h
      have hm : m = n := by simpa using h.symm
      subst hm
      exact ⟨Nat.lt_succ_self m, hk, fun j hj _ => by omega⟩
    · rw [if_neg hk] at h
      obtain ⟨h1, h2, h3⟩ := ih m h
      refine ⟨by omega, h2, fun j hj hkey => ?_⟩
      rcases Nat.lt_succ_iff_lt_or_eq.mp hj with h' | h'
      · exact h3 j h' hkey
      · subst h'
        exact absurd hkey (by simpa using hk)

/-- Executing `FX0A`: when no key is pressed the state is untouched (beyond
the `opcode` latch, so the program counter stays put); when some key is
pressed, `V[X]` receives the last pressed index found by the `0..15` scan
and the program counter advances. -/
theorem exec_FX0A (r : Nat) (s : Chip8)
    (h1 : mem8 s s.pc / 16 = 15) (h2 : mem8 s (s.pc + 1) = 0x0A) :
    executeNextInstruction r s =
      (match lastPressed s.keys_pressed 16 with
       | none => { s with opcode := fetchOp s }
       | some m =>
         { s with opcode := fetchOp s, V := upd s.V (mem8 s s.pc % 16) m, pc := (s.pc + 2) % 65536 }) := by
  have hb1 := mem8_lt s s.pc
  have hb2 := mem8_lt s (s.pc + 1)
  have htop : fetchOp s / 4096 = 15 := by unfold fetchOp; omega
  have hNN : fetchOp s % 256 = 0x0A := by unfold fetchOp; omega
  have hX : fetchOp s / 256 % 16 = mem8 s s.pc % 16 := by unfold fetchOp; omega
  unfold executeNextInstruction
  dsimp only
  rw [htop, hNN, hX]
  norm_num
  unfold keyScan
  rw [keyScan_char]
  cases hl : lastPressed s.keys_pressed 16 with
  | none => rfl
  | some m => rfl

/-- C7: with the current instruction `FX0A`, a `step()` with no key pressed
leaves the program counter unchanged (the same instruction will be fetched
again on every later step while no key is pressed), and a `step()` with some
key pressed stores a pressed key's index into `VX` and advances the program
counter by two. -/
theorem c7_FX0A_blocking (r : Nat) (s : Chip8)
    (h1 : mem8 s s.pc / 16 = 15) (h2 : mem8 s (s.pc + 1) = 0x0A) :
    ((∀ i, i < 16 → s.keys_pressed i = false) → (step r s).pc = s.pc) ∧
    ((∃ i, i < 16 ∧ s.keys_pressed i = true) →
      ∃ k, k < 16 ∧ s.keys_pressed k = true ∧
        (executeNextInstruction r s).V (mem8 s s.pc % 16) = k ∧
        (step r s).pc = (s.pc + 2) % 65536) := by
  unfold step
  rw [decrementTimers_pc, exec_FX0A r s h1 h2]
  constructor
  · intro hnone
    cases hl : lastPressed s.keys_pressed 16 with
    | none => rfl
    | some m =>
      obtain ⟨hm, hkey, _⟩ := lastPressed_eq_some s.keys_pressed 16 m hl
      exact absurd hkey (by simp [hnone m hm])
  · rintro ⟨i, hi, hkey⟩
    cases hl : lastPressed s.keys_pressed 16 with
    | none =>
      exact absurd hkey (by simp [lastPressed_eq_none s.keys_pressed 16 hl i hi])
    | some m =>
      obtain ⟨hm, hkeym, _⟩ := lastPressed_eq_some s.keys_pressed 16 m hl
      exact ⟨m, hm, hkeym, by simp [upd], rfl⟩

/-- Witness for C7 at the concrete states `sKey0` (no key pressed) and
`sKey` (keys 2 and 7 pressed). -/
theorem c7_FX0A_blocking_witness :
    (step 0 sKey0).pc = sKey0.pc ∧
    (∃ k, k < 16 ∧ sKey.keys_pressed k = true ∧
      (executeNextInstruction 0 sKey).V (mem8 sKey sKey.pc % 16) = k ∧
      (step 0 sKey).pc = (sKey.pc + 2) % 65536) :=
  ⟨(c7_FX0A_blocking 0 sKey0 (by decide) (by decide)).1 (by decide),
   (c7_FX0A_blocking 0 sKey (by decide) (by decide)).2 ⟨2, by decide, by decide⟩⟩

/-- C10: when `FX0A` executes with at least one key pressed, `VX` receives
the index of the highest-numbered pressed key (the `0..15` scan overwrites
`V[X]` at every pressed key), and the program counter advances by two. -/
theorem c10_FX0A_highest_key (r : Nat) (s : Chip8)
    (h1 : mem8 s s.pc / 16 = 15) (h2 : mem8 s (s.pc + 1) = 0x0A)
    (k : Nat) (hk16 : k < 16) (hk : s.keys_pressed k = true) :
    ∃ m, m < 16 ∧ s.keys_pressed m = true ∧
      (∀ j, j < 16 → s.keys_pressed j = true → j ≤ m) ∧
      (executeNextInstruction r s).V (mem8 s s.pc % 16) = m ∧
      (executeNextInstruction r s).pc = (s.pc + 2) % 65536 := by
  rw [exec_FX0A r s h1 h2]
  cases hl : lastPressed s.keys_pressed 16 with
  | none =>
    exact absurd hk (by simp [lastPressed_eq_none s.keys_pressed 16 hl k hk16])
  | some m =>
    obtain ⟨hm, hkeym, hmax⟩ := lastPressed_eq_some s.keys_pressed 16 m hl
    exact ⟨m, hm, hkeym, hmax, by simp [upd], rfl⟩

/-- Witness for C10 at the concrete state `sKey` (keys 2 and 7 pressed). -/
theorem c10_FX0A_highest_key_witness :
    ∃ m, m < 16 ∧ sKey.keys_pressed m = true ∧
      (∀ j, j < 16 → sKey.keys_pressed j = true → j ≤ m) ∧
      (executeNextInstruction 0 sKey).V (mem8 sKey sKey.pc % 16) = m ∧
      (executeNextInstruction 0 sKey).pc = (sKey.pc + 2) % 65536 :=
  c10_FX0A_highest_key 0 sKey (by decide) (by decide) 2 (by decide) (by decide)

/-- C3 (amended): on a fetched opcode that matches no recognized pattern,
`executeNextInstruction` reports a diagnostic and leaves the machine state
unchanged apart from latching the fetched opcode into the `opcode` field —
in particular the program counter does NOT advance (it stays put, so the
same instruction is re-fetched on the next step; only the timers tick).
The original claim's "the program counter advances past the unrecognized
instruction" is refuted by `c3_counterexample`. -/
theorem c3_unrecognized_no_advance (r : Nat) (s : Chip8)
    (h : unknownOp (fetchOp s) = true) :
    executeNextInstruction r s = { s with opcode := fetchOp s } ∧
    (step r s).pc = s.pc := by
  have hexec : executeNextInstruction r s = { s with opcode := fetchOp s } := by
    unfold unknownOp at h
    dsimp only at h
    by_cases ht0 : fetchOp s / 4096 = 0
    · rw [if_pos ht0] at h
      by_cases hE0 : fetchOp s = 224
      · rw [if_pos hE0] at h
        exact absurd h (by decide)
      · rw [if_neg hE0] at h
        by_cases hEE : fetchOp s = 238
        · rw [if_pos hEE] at h
          exact absurd h (by decide)
        · unfold executeNextInstruction
          dsimp only
          rw [if_pos ht0, if_neg hE0, if_neg hEE]
    · rw [if_neg ht0] at h
      by_cases ht8 : fetchOp s / 4096 = 8
      · rw [if_pos ht8] at h
        by_cases hN0 : fetchOp s % 16 = 0
        · rw [if_pos hN0] at h
          exact absurd h (by decide)
        rw [if_neg hN0] at h
        by_cases hN1 : fetchOp s % 16 = 1
        · rw [if_pos hN1] at h
          exact absurd h (by decide)
        rw [if_neg hN1] at h
        by_cases hN2 : fetchOp s % 16 = 2
        · rw [if_pos hN2] at h
          exact absurd h (by decide)
        rw [if_neg hN2] at h
        by_cases hN3 : fetchOp s % 16 = 3
        · rw [if_pos hN3] at h
          exact absurd h (by decide)
        rw [if_neg hN3] at h
        by_cases hN4 : fetchOp s % 16 = 4
        · rw [if_pos hN4] at h
          exact absurd h (by decide)
        rw [if_neg hN4] at h
        by_cases hN5 : fetchOp s % 16 = 5
        · rw [if_pos hN5] at h
          exact absurd h (by decide)
        rw [if_neg hN5] at h
        by_cases hN6 : fetchOp s % 16 = 6
        · rw [if_pos hN6] at h
          exact absurd h (by decide)
        rw [if_neg hN6] at h
        by_cases hN7 : fetchOp s % 16 = 7
        · rw [if_pos hN7] at h
          exact absurd h (by decide)
        rw [if_neg hN7] at h
        by_cases hN14 : fetchOp s % 16 = 14
        · rw [if_pos hN14] at h
          exact absurd h (by decide)
        rw [if_neg hN14] at h
        unfold executeNextInstruction
        dsimp only
        rw [ht8]
        norm_num
        rw [if_neg hN0, if_neg hN1, if_neg hN2, if_neg hN3, if_neg hN4, if_neg hN5, if_neg hN6, if_neg hN7, if_neg hN14]
      · rw [if_neg ht8] at h
        by_cases ht14 : fetchOp s / 4096 = 14
        · rw [if_pos ht14] at h
          by_cases hE9E : fetchOp s % 256 = 158
          · rw [if_pos hE9E] at h
            exact absurd h (by decide)
          rw [if_neg hE9E] at h
          by_cases hEA1 : fetchOp s % 256 = 161
          · rw [if_pos hEA1] at h
            exact absurd h (by decide)
          rw [if_neg hEA1] at h
          unfold executeNextInstruction
          dsimp only
          rw [ht14]
          norm_num
          rw [if_neg hE9E, if_neg hEA1]
        · rw [if_neg ht14] at h
          by_cases ht15 : fetchOp s / 4096 = 15
          · rw [if_pos ht15] at h
            by_cases hF7 : fetchOp s % 256 = 7
            · rw [if_pos hF7] at h
              exact absurd h (by decide)
            rw [if_neg hF7] at h
            by_cases hF10 : fetchOp s % 256 = 10
            · rw [if_pos hF10] at h
              exact absurd h (by decide)
            rw [if_neg hF10] at h
            by_cases hF21 : fetchOp s % 256 = 21
            · rw [if_pos hF21] at h
              exact absurd h (by decide)
            rw [if_neg hF21] at h
            by_cases hF24 : fetchOp s % 256 = 24
            · rw [if_pos hF24] at h
              exact absurd h (by decide)
            rw [if_neg hF24] at h
            by_cases hF30 : fetchOp s % 256 = 30
            · rw [if_pos hF30] at h
              exact absurd h (by decide)
            rw [if_neg hF30] at h
            by_cases hF41 : fetchOp s % 256 = 41
            · rw [if_pos hF41] at h
              exact absurd h (by decide)
            rw [if_neg hF41] at h
            by_cases hF51 : fetchOp s % 256 = 51
            · rw [if_pos hF51] at h
              exact absurd h (by decide)
            rw [if_neg hF51] at h
            by_cases hF85 : fetchOp s % 256 = 85
            · rw [if_pos hF85] at h
              exact absurd h (by decide)
            rw [if_neg hF85] at h
            by_cases hF101 : fetchOp s % 256 = 101
            · rw [if_pos hF101] at h
              exact absurd h (by decide)
            rw [if_neg hF101] at h
            unfold executeNextInstruction
            dsimp only
            rw [ht15]
            norm_num
            rw [if_neg hF7, if_neg hF10, if_neg hF21, if_neg hF24, if_neg hF30, if_neg hF41, if_neg hF51, if_neg hF85, if_neg hF101]
          · rw [if_neg ht15] at h
            exact absurd h (by decide)
  refine ⟨hexec, ?_⟩
  unfold step
  rw [decrementTimers_pc, hexec]

/-- Witness for C3's amended theorem at the concrete state `sC3`. -/
theorem c3_unrecognized_no_advance_witness :
    executeNextInstruction 0 sC3 = { sC3 with opcode := fetchOp sC3 } ∧
    (step 0 sC3).pc = sC3.pc :=
  c3_unrecognized_no_advance 0 sC3 (by decide)

/-- `drawFrame` is reflexive. -/
theorem drawFrame_refl (s : Chip8) : drawFrame s s := by
  unfold drawFrame
  exact ⟨rfl, fun _ _ => rfl, rfl, rfl, rfl, rfl, rfl, rfl, rfl, rfl, rfl, rfl⟩

/-- `drawFrame` composes. -/
theorem drawFrame_trans {s t u : Chip8} (h1 : drawFrame s t) (h2 : drawFrame t u) :
    drawFrame s u := by
  obtain ⟨a1, a2, a3, a4, a5, a6, a7, a8, a9, a10, a11, a12⟩ := h1
  obtain ⟨b1, b2, b3, b4, b5, b6, b7, b8, b9, b10, b11, b12⟩ := h2
  exact ⟨b1.trans a1, fun x hx => (b2 x hx).trans (a2 x hx), b3.trans a3,
    b4.trans a4, b5.trans a5, b6.trans a6, b7.trans a7, b8.trans a8,
    b9.trans a9, b10.trans a10, b11.trans a11, b12.trans a12⟩

/-- Within one sprite row, distinct columns target distinct flat indices. -/
theorem pixelLoc_inj_col (vx vy r : Nat) {c c' : Nat} (hc : c < 8) (hc' : c' < 8)
    (h : pixelLoc vx vy r c = pixelLoc vx vy r c') : c = c' := by
  unfold pixelLoc at h
  omega

/-- For rows below 15 (`N` is a nibble) and columns below 8, the flat target
index determines the sprite cell: no two sprite cells alias. -/
theorem pixelLoc_inj_row (vx vy : Nat) {r c r' c' : Nat} (hr : r < 15) (hr' : r' < 15)
    (hc : c < 8) (hc' : c' < 8)
    (h : pixelLoc vx vy r c = pixelLoc vx vy r' c') : r = r' ∧ c = c' := by
  unfold pixelLoc at h
  omega

/-- Effect of one column iteration of the draw loop: everything outside
`pixels` and `VF` is untouched, the targeted pixel is XORed when the sprite
bit is set, and `VF` becomes 1 on a collision. -/
theorem drawCol_char (X Y r spr : Nat) (s : Chip8) (c : Nat) :
    drawFrame s (drawCol X Y r spr s c) ∧
    (∀ loc, (drawCol X Y r spr s c).pixels loc =
      ((s.pixels loc).xor
        (spriteBit spr c && decide (pixelLoc (reg8 s X) (reg8 s Y) r c = loc)))) ∧
    (drawCol X Y r spr s c).V 15 =
      (if spriteBit spr c && s.pixels (pixelLoc (reg8 s X) (reg8 s Y) r c)
       then 1 else s.V 15) := by
  unfold drawCol
  by_cases hbit : spriteBit spr c
  · rw [if_pos hbit]
    dsimp only
    by_cases hpx : s.pixels (pixelLoc (reg8 s X) (reg8 s Y) r c)
    · rw [if_pos hpx]
      refine ⟨⟨rfl, fun x hx => ?_, rfl, rfl, rfl, rfl, rfl, rfl, rfl, rfl, rfl, rfl⟩,
        fun loc => ?_, ?_⟩
      · simp [upd, hx]
      · by_cases hl : pixelLoc (reg8 s X) (reg8 s Y) r c = loc
        · subst hl
          simp [updB, hbit, hpx]
        · simp [updB, hbit, hl, Ne.symm hl]
      · simp [upd, hbit, hpx]
    · rw [if_neg hpx]
      refine ⟨⟨rfl, fun x hx => rfl, rfl, rfl, rfl, rfl, rfl, rfl, rfl, rfl, rfl, rfl⟩,
        fun loc => ?_, ?_⟩
      · by_cases hl : pixelLoc (reg8 s X) (reg8 s Y) r c = loc
        · subst hl
          simp [updB, hbit, hpx]
        · simp [updB, hbit, hl, Ne.symm hl]
      · simp [hbit, hpx]
  · rw [if_neg hbit]
    refine ⟨drawFrame_refl s, fun loc => by simp [hbit], by simp [hbit]⟩

/-- Unfold `rowHits` at the last column. -/
theorem rowHits_succ (spr vx vy r k loc : Nat) :
    rowHits spr vx vy r (k + 1) loc =
      (rowHits spr vx vy r k loc ||
        (spriteBit spr k && decide (pixelLoc vx vy r k = loc))) := by
  simp [rowHits, List.range_succ]

/-- Unfold `rowCollides` at the last column. -/
theorem rowCollides_succ (spr vx vy r k : Nat) (px : Nat → Bool) :
    rowCollides spr vx vy r (k + 1) px =
      (rowCollides spr vx vy r k px ||
        (spriteBit spr k && px (pixelLoc vx vy r k))) := by
  simp [rowCollides, List.range_succ]

/-- `rowHits` as an existential. -/
theorem rowHits_eq_true {spr vx vy r k loc : Nat} :
    rowHits spr vx vy r k loc = true ↔
      ∃ c, c < k ∧ spriteBit spr c = true ∧ pixelLoc vx vy r c = loc := by
  simp [rowHits, List.any_eq_true, List.mem_range]

/-- Exclusive and inclusive or agree when the disjuncts cannot both hold. -/
theorem bool_xor_eq_or {a b : Bool} (h : a = true → b = false) :
    a.xor b = (a || b) := by
  cases a
  · simp
  · simp [h rfl]

/-- Merging two nested collision updates of `VF`. -/
theorem if_one_merge (a b : Bool) (v : Nat) :
    (if b then (1 : Nat) else if a then 1 else v) = if a || b then 1 else v := by
  cases a <;> cases b <;> simp

/-- Effect of the first `k ≤ 8` column iterations of one sprite row, for
coordinate registers other than `VF`: pixels are XORed with the row's hit
mask and `VF` is set exactly on collision with the pre-row framebuffer
(within a row no two columns alias, by `pixelLoc_inj_col`). -/
theorem drawCols_char (X Y r spr : Nat) (hX : X ≠ 15) (hY : Y ≠ 15) :
    ∀ k, k ≤ 8 → ∀ s : Chip8,
      drawFrame s ((List.range k).foldl (drawCol X Y r spr) s) ∧
      (∀ loc, ((List.range k).foldl (drawCol X Y r spr) s).pixels loc =
        ((s.pixels loc).xor (rowHits spr (reg8 s X) (reg8 s Y) r k loc))) ∧
      ((List.range k).foldl (drawCol X Y r spr) s).V 15 =
        (if rowCollides spr (reg8 s X) (reg8 s Y) r k s.pixels then 1
         else s.V 15) := by
  intro k
  induction k with
  | zero =>
    intro _ s
    exact ⟨drawFrame_refl s, fun loc => by simp [rowHits], by simp [rowCollides]⟩
  | succ k ih =>
    intro hk s
    have hk8 : k < 8 := by omega
    obtain ⟨ihf, ihp, ihv⟩ := ih (by omega) s
    obtain ⟨ihm, ihV, ihI, ihpc, ihsp, ihst, ihd, ihs2, ihk, ihdf, ihop, ihold⟩ := ihf
    have hfold : (List.range (k + 1)).foldl (drawCol X Y r spr) s =
        drawCol X Y r spr ((List.range k).foldl (drawCol X Y r spr) s) k := by
      rw [List.range_succ, List.foldl_append]
      rfl
    set u := (List.range k).foldl (drawCol X Y r spr) s with hu
    obtain ⟨dcf, dcp, dcv⟩ := drawCol_char X Y r spr u k
    have hrX : reg8 u X = reg8 s X := by unfold reg8; rw [ihV X hX]
    have hrY : reg8 u Y = reg8 s Y := by unfold reg8; rw [ihV Y hY]
    have hlock : rowHits spr (reg8 s X) (reg8 s Y) r k
        (pixelLoc (reg8 s X) (reg8 s Y) r k) = false := by
      by_contra hcon
      obtain ⟨c, hck, hbit, heq⟩ :=
        rowHits_eq_true.mp (by simpa using hcon)
      have := pixelLoc_inj_col (reg8 s X) (reg8 s Y) r (by omega) hk8 heq
      omega
    refine ⟨?_, fun loc => ?_, ?_⟩
    · rw [hfold]
      exact drawFrame_trans ⟨ihm, ihV, ihI, ihpc, ihsp, ihst, ihd, ihs2, ihk,
        ihdf, ihop, ihold⟩ dcf
    · rw [hfold, dcp loc, hrX, hrY, ihp loc, Bool.xor_assoc]
      congr 1
      rw [rowHits_succ]
      apply bool_xor_eq_or
      intro hrh
      by_contra hcon
      have hcon' : spriteBit spr k = true ∧
          pixelLoc (reg8 s X) (reg8 s Y) r k = loc := by
        simpa using hcon
      obtain ⟨c, hck, hbit, heq⟩ := rowHits_eq_true.mp hrh
      have := pixelLoc_inj_col (reg8 s X) (reg8 s Y) r (by omega) hk8
        (heq.trans hcon'.2.symm)
      omega
    · rw [hfold, dcv, hrX, hrY, ihp, hlock, Bool.xor_false, ihv,
        if_one_merge, rowCollides_succ]

/-- `rowCollides` only looks at the pixels targeted by set sprite bits. -/
theorem rowCollides_congr {spr vx vy r : Nat} :
    ∀ (k : Nat) {px1 px2 : Nat → Bool},
      (∀ c, c < k → spriteBit spr c = true →
        px1 (pixelLoc vx vy r c) = px2 (pixelLoc vx vy r c)) →
      rowCollides spr vx vy r k px1 = rowCollides spr vx vy r k px2 := by
  intro k
  induction k with
  | zero => intro px1 px2 _; rfl
  | succ k ih =>
    intro px1 px2 h
    rw [rowCollides_succ, rowCollides_succ,
      ih (fun c hc hb => h c (by omega) hb)]
    congr 1
    by_cases hbit : spriteBit spr k = true
    · rw [hbit, h k (by omega) hbit]
    · simp [hbit]

/-- Unfold `hits` at the last row. -/
theorem hits_succ (mem : Nat → Nat) (i vx vy n loc : Nat) :
    hits mem i vx vy (n + 1) loc =
      (hits mem i vx vy n loc ||
        rowHits (mem (i + n) % 256) vx vy n 8 loc) := by
  simp [hits, List.range_succ]

/-- Unfold `collides` at the last row. -/
theorem collides_succ (mem : Nat → Nat) (i vx vy n : Nat) (px : Nat → Bool) :
    collides mem i vx vy (n + 1) px =
      (collides mem i vx vy n px ||
        rowCollides (mem (i + n) % 256) vx vy n 8 px) := by
  simp [collides, List.range_succ]

/-- `hits` as an existential. -/
theorem hits_eq_true {mem : Nat → Nat} {i vx vy n loc : Nat} :
    hits mem i vx vy n loc = true ↔
      ∃ r, r < n ∧ ∃ c, c < 8 ∧ spriteBit (mem (i + r) % 256) c = true ∧
        pixelLoc vx vy r c = loc := by
  simp [hits, List.any_eq_true, List.mem_range, rowHits_eq_true]

/-- Effect of one full row iteration of the draw loop. -/
theorem drawRow_char (X Y : Nat) (hX : X ≠ 15) (hY : Y ≠ 15)
    (s : Chip8) (r : Nat) :
    drawFrame s (drawRow X Y s r) ∧
    (∀ loc, (drawRow X Y s r).pixels loc =
      ((s.pixels loc).xor
        (rowHits (mem8 s (s.I + r)) (reg8 s X) (reg8 s Y) r 8 loc))) ∧
    (drawRow X Y s r).V 15 =
      (if rowCollides (mem8 s (s.I + r)) (reg8 s X) (reg8 s Y) r 8 s.pixels
       then 1 else s.V 15) :=
  drawCols_char X Y r (mem8 s (s.I + r)) hX hY 8 (by omega) s

/-- Effect of the full `DXYN` double loop (after `V[0xF] = 0`) for `n ≤ 15`
rows and coordinate registers other than `VF`: every pixel is XORed with the
sprite's hit mask at its flat wrapped index, `VF` is set exactly when some
set sprite bit targets a pixel lit before the draw, and nothing else
changes (across rows no two sprite cells alias, by `pixelLoc_inj_row`). -/
theorem drawSprite_char (X Y : Nat) (hX : X ≠ 15) (hY : Y ≠ 15) :
    ∀ n, n ≤ 15 → ∀ s : Chip8,
      drawFrame s (drawSprite X Y n s) ∧
      (∀ loc, (drawSprite X Y n s).pixels loc =
        ((s.pixels loc).xor (hits s.memory s.I (reg8 s X) (reg8 s Y) n loc))) ∧
      (drawSprite X Y n s).V 15 =
        (if collides s.memory s.I (reg8 s X) (reg8 s Y) n s.pixels then 1
         else s.V 15) := by
  intro n
  induction n with
  | zero =>
    intro _ s
    exact ⟨drawFrame_refl s, fun loc => by simp [drawSprite, hits],
      by simp [drawSprite, collides]⟩
  | succ n ih =>
    intro hn s
    have hn15 : n < 15 := by omega
    obtain ⟨ihf, ihp, ihv⟩ := ih (by omega) s
    obtain ⟨ihm, ihV, ihI, ihpc, ihsp, ihst, ihd, ihs2, ihk, ihdf, ihop, ihold⟩ := ihf
    have hfold : drawSprite X Y (n + 1) s =
        drawRow X Y (drawSprite X Y n s) n := by
      unfold drawSprite
      rw [List.range_succ, List.foldl_append]
      rfl
    set u := drawSprite X Y n s with hu
    obtain ⟨drf, drp, drv⟩ := drawRow_char X Y hX hY u n
    have hrX : reg8 u X = reg8 s X := by unfold reg8; rw [ihV X hX]
    have hrY : reg8 u Y = reg8 s Y := by unfold reg8; rw [ihV Y hY]
    have hmem : mem8 u (u.I + n) = mem8 s (s.I + n) := by
      unfold mem8
      rw [ihm, ihI]
    have hits_row_false : ∀ c, c < 8 →
        hits s.memory s.I (reg8 s X) (reg8 s Y) n
          (pixelLoc (reg8 s X) (reg8 s Y) n c) = false := by
      intro c hc
      by_contra hcon
      obtain ⟨r2, hr2, c2, hc2, hbit2, heq2⟩ :=
        hits_eq_true.mp (by simpa using hcon)
      have := pixelLoc_inj_row (reg8 s X) (reg8 s Y)
        (show r2 < 15 by omega) hn15 hc2 hc heq2
      omega
    refine ⟨?_, fun loc => ?_, ?_⟩
    · rw [hfold]
      exact drawFrame_trans ⟨ihm, ihV, ihI, ihpc, ihsp, ihst, ihd, ihs2, ihk,
        ihdf, ihop, ihold⟩ drf
    · rw [hfold, drp loc, hmem, hrX, hrY, ihp loc, Bool.xor_assoc]
      congr 1
      rw [hits_succ]
      apply bool_xor_eq_or
      intro hh
      by_contra hcon
      obtain ⟨c, hc, hbit, heq⟩ :=
        rowHits_eq_true.mp (by simpa using hcon)
      obtain ⟨r2, hr2, c2, hc2, hbit2, heq2⟩ := hits_eq_true.mp hh
      have := pixelLoc_inj_row (reg8 s X) (reg8 s Y)
        (show r2 < 15 by omega) hn15 hc2 hc (heq2.trans heq.symm)
      omega
    · rw [hfold, drv, hmem, hrX, hrY,
        rowCollides_congr 8 (fun c hc hb => by rw [ihp, hits_row_false c hc, Bool.xor_false]),
        ihv, if_one_merge, collides_succ]
      rfl

/-- Executing a fetched `DXYN` instruction whose `X` and `Y` fields differ
from `0xF`: the framebuffer is XORed with the sprite's hit mask, `VF`
becomes the collision flag, and memory, the other registers, `I` stay put
while the program counter advances by two. -/
theorem exec_DXYN (r : Nat) (s : Chip8)
    (htop : mem8 s s.pc / 16 = 13)
    (hX : mem8 s s.pc % 16 ≠ 15)
    (hY : mem8 s (s.pc + 1) / 16 ≠ 15) :
    (∀ loc, (executeNextInstruction r s).pixels loc =
      ((s.pixels loc).xor (hits s.memory s.I (reg8 s (mem8 s s.pc % 16))
        (reg8 s (mem8 s (s.pc + 1) / 16)) (mem8 s (s.pc + 1) % 16) loc))) ∧
    (executeNextInstruction r s).V 15 =
      (if collides s.memory s.I (reg8 s (mem8 s s.pc % 16))
          (reg8 s (mem8 s (s.pc + 1) / 16)) (mem8 s (s.pc + 1) % 16) s.pixels
       then 1 else 0) ∧
    (executeNextInstruction r s).memory = s.memory ∧
    (∀ x, x ≠ 15 → (executeNextInstruction r s).V x = s.V x) ∧
    (executeNextInstruction r s).I = s.I ∧
    (executeNextInstruction r s).pc = (s.pc + 2) % 65536 := by
  have hb1 := mem8_lt s s.pc
  have hb2 := mem8_lt s (s.pc + 1)
  have h13 : fetchOp s / 4096 = 13 := by unfold fetchOp; omega
  have hXeq : fetchOp s / 256 % 16 = mem8 s s.pc % 16 := by unfold fetchOp; omega
  have hYeq : fetchOp s / 16 % 16 = mem8 s (s.pc + 1) / 16 := by
    unfold fetchOp; omega
  have hNeq : fetchOp s % 16 = mem8 s (s.pc + 1) % 16 := by unfold fetchOp; omega
  have hexec : executeNextInstruction r s =
      { drawSprite (mem8 s s.pc % 16) (mem8 s (s.pc + 1) / 16)
          (mem8 s (s.pc + 1) % 16)
          { s with opcode := fetchOp s, V := upd s.V 15 0 } with
        draw_flag := true,
        pc := ((drawSprite (mem8 s s.pc % 16) (mem8 s (s.pc + 1) / 16)
          (mem8 s (s.pc + 1) % 16)
          { s with opcode := fetchOp s, V := upd s.V 15 0 }).pc + 2) % 65536 } := by
    unfold executeNextInstruction
    dsimp only
    rw [h13]
    norm_num
    rw [hXeq, hYeq, hNeq]
    repeat' apply And.intro
    all_goals rfl
  obtain ⟨⟨dm, dV, dI, dpc, _, _, _, _, _, _, _, _⟩, dsp, dsv⟩ :=
    drawSprite_char (mem8 s s.pc % 16) (mem8 s (s.pc + 1) / 16) hX hY
      (mem8 s (s.pc + 1) % 16) (by omega)
      { s with opcode := fetchOp s, V := upd s.V 15 0 }
  have hr1 : reg8 { s with opcode := fetchOp s, V := upd s.V 15 0 }
      (mem8 s s.pc % 16) = reg8 s (mem8 s s.pc % 16) := by
    simp only [reg8, upd]
    rw [if_neg hX]
  have hr2 : reg8 { s with opcode := fetchOp s, V := upd s.V 15 0 }
      (mem8 s (s.pc + 1) / 16) = reg8 s (mem8 s (s.pc + 1) / 16) := by
    simp only [reg8, upd]
    rw [if_neg hY]
  refine ⟨fun loc => ?_, ?_, ?_, fun x hx => ?_, ?_, ?_⟩
  · rw [hexec]
    dsimp only
    rw [dsp loc, hr1, hr2]
  · rw [hexec]
    dsimp only
    rw [dsv, hr1, hr2]
    simp [upd]
  · rw [hexec]
    dsimp only
    exact dm
  · rw [hexec]
    dsimp only
    rw [dV x hx]
    simp [upd, hx]
  · rw [hexec]
    dsimp only
    exact dI
  · rw [hexec]
    dsimp only
    rw [dpc]

/-- A set sprite bit always hits its own target index. -/
theorem hits_of_bit {mem : Nat → Nat} {i vx vy n r c : Nat} (hr : r < n)
    (hc : c < 8) (hbit : spriteBit (mem (i + r) % 256) c = true) :
    hits mem i vx vy n (pixelLoc vx vy r c) = true :=
  hits_eq_true.mpr ⟨r, hr, c, hc, hbit, rfl⟩

/-- `collides` only looks at the pixels targeted by set sprite bits. -/
theorem collides_congr {mem : Nat → Nat} {i vx vy : Nat} :
    ∀ (n : Nat) {px1 px2 : Nat → Bool},
      (∀ r c, r < n → c < 8 → spriteBit (mem (i + r) % 256) c = true →
        px1 (pixelLoc vx vy r c) = px2 (pixelLoc vx vy r c)) →
      collides mem i vx vy n px1 = collides mem i vx vy n px2 := by
  intro n
  induction n with
  | zero => intro px1 px2 _; rfl
  | succ n ih =>
    intro px1 px2 h
    rw [collides_succ, collides_succ,
      ih (fun r c hr hc hb => h r c (by omega) hc hb),
      rowCollides_congr 8 (fun c hc hb => h n c (by omega) hc hb)]

/-- C1 (amended): for a `DXYN` whose `X` and `Y` fields differ from `0xF`
(needed because the draw clobbers `VF` mid-loop), each set sprite bit at row
`rr`, column `cc` is XORed into the framebuffer at the FLAT index
`(VX + cc + (VY + rr) * 64) mod 2048` — wraparound is on the global linear
index (`% pixels.size()` in the source), not per axis; consequently an
8-column sprite drawn at x = 60 spills into columns 0..3 of the NEXT row
(see `c1_counterexample`), contrary to the original claim. -/
theorem c1_draw_flat_index_wrap (r : Nat) (s : Chip8)
    (htop : mem8 s s.pc / 16 = 13)
    (hX : mem8 s s.pc % 16 ≠ 15)
    (hY : mem8 s (s.pc + 1) / 16 ≠ 15) :
    (∀ loc, (executeNextInstruction r s).pixels loc =
      ((s.pixels loc).xor (hits s.memory s.I (reg8 s (mem8 s s.pc % 16))
        (reg8 s (mem8 s (s.pc + 1) / 16)) (mem8 s (s.pc + 1) % 16) loc))) ∧
    (∀ rr cc, rr < mem8 s (s.pc + 1) % 16 → cc < 8 →
      spriteBit (mem8 s (s.I + rr)) cc = true →
      (executeNextInstruction r s).pixels
        (pixelLoc (reg8 s (mem8 s s.pc % 16))
          (reg8 s (mem8 s (s.pc + 1) / 16)) rr cc) =
      !(s.pixels (pixelLoc (reg8 s (mem8 s s.pc % 16))
          (reg8 s (mem8 s (s.pc + 1) / 16)) rr cc))) ∧
    (executeNextInstruction r s).pc = (s.pc + 2) % 65536 := by
  obtain ⟨hp, _, _, _, _, hpc⟩ := exec_DXYN r s htop hX hY
  refine ⟨hp, fun rr cc hrr hcc hbit => ?_, hpc⟩
  rw [hp, hits_of_bit hrr hcc hbit, Bool.xor_true]

/-- C1 (counterexample): in `sC1` the sprite bit at row 0, column 4 of a
draw at `(VX, VY) = (60, 0)` lands at flat index 64 — row 1, column 0 — so
the draw DOES spill into a different row, while the per-axis target claimed
by the spec (row 0, column 0, i.e. `specPixelLoc 60 0 0 4 = 0`) stays
untouched. -/
theorem c1_counterexample :
    sC1.pixels 64 = false ∧
    (executeNextInstruction 0 sC1).pixels (pixelLoc 60 0 0 4) = true ∧
    pixelLoc 60 0 0 4 = 64 ∧
    (executeNextInstruction 0 sC1).pixels (specPixelLoc 60 0 0 4) = false ∧
    specPixelLoc 60 0 0 4 = 0 := by
  decide

/-- C8 (amended): executing the same `DXYN` twice in succession (same bytes
at `pc` and `pc + 2`, `X`, `Y` fields distinct from `0xF`, sprite bytes and
`I` untouched by the draw itself) restores every framebuffer pixel to its
value before the first draw; but `VF` after the second draw is 1 exactly
where some set sprite bit targets a pixel that was CLEAR before the first
draw (such pixels are lit after the first draw), not "set before the first
draw" as the original claim states — that is refuted by
`c8_counterexample`. -/
theorem c8_double_draw_restores (r1 r2 : Nat) (s : Chip8)
    (htop : mem8 s s.pc / 16 = 13)
    (hX : mem8 s s.pc % 16 ≠ 15)
    (hY : mem8 s (s.pc + 1) / 16 ≠ 15)
    (hpc : s.pc + 3 < 65536)
    (hsame1 : mem8 s (s.pc + 2) = mem8 s s.pc)
    (hsame2 : mem8 s (s.pc + 3) = mem8 s (s.pc + 1)) :
    (∀ loc, (executeNextInstruction r2 (executeNextInstruction r1 s)).pixels loc
      = s.pixels loc) ∧
    (executeNextInstruction r2 (executeNextInstruction r1 s)).V 15 =
      (if collides s.memory s.I (reg8 s (mem8 s s.pc % 16))
          (reg8 s (mem8 s (s.pc + 1) / 16)) (mem8 s (s.pc + 1) % 16)
          (fun p => !(s.pixels p)) then 1 else 0) := by
  obtain ⟨p1, v1, m1, V1, I1, pc1⟩ := exec_DXYN r1 s htop hX hY
  set t1 := executeNextInstruction r1 s with ht1
  have hpc1 : t1.pc = s.pc + 2 := by rw [pc1]; omega
  have hm1a : mem8 t1 t1.pc = mem8 s s.pc := by
    unfold mem8
    rw [m1, hpc1]
    exact hsame1
  have hm1b : mem8 t1 (t1.pc + 1) = mem8 s (s.pc + 1) := by
    unfold mem8
    rw [m1, hpc1]
    exact hsame2
  have htop2 : mem8 t1 t1.pc / 16 = 13 := by rw [hm1a]; exact htop
  have hX2 : mem8 t1 t1.pc % 16 ≠ 15 := by rw [hm1a]; exact hX
  have hY2 : mem8 t1 (t1.pc + 1) / 16 ≠ 15 := by rw [hm1b]; exact hY
  obtain ⟨p2, v2, m2, V2, I2, pc2⟩ := exec_DXYN r2 t1 htop2 hX2 hY2
  rw [hm1a, hm1b] at p2 v2
  have hreg1 : reg8 t1 (mem8 s s.pc % 16) = reg8 s (mem8 s s.pc % 16) := by
    unfold reg8
    rw [V1 _ hX]
  have hreg2 : reg8 t1 (mem8 s (s.pc + 1) / 16) =
      reg8 s (mem8 s (s.pc + 1) / 16) := by
    unfold reg8
    rw [V1 _ hY]
  rw [hreg1, hreg2, m1, I1] at p2 v2
  constructor
  · intro loc
    rw [p2 loc, p1 loc, Bool.xor_assoc, Bool.xor_self, Bool.xor_false]
  · rw [v2, collides_congr _ (fun rr cc hrr hcc hbit => ?_)]
    rw [p1, hits_of_bit hrr hcc hbit, Bool.xor_true]

/-- C8 (counterexample): in `sC8` the only sprite bit targets pixel 0, which
IS set before the first draw, so the original claim requires `VF = 1` after
the second draw; the code leaves `VF = 0` (the pixel itself is duly
restored). -/
theorem c8_counterexample :
    sC8.pixels (pixelLoc 0 0 0 0) = true ∧
    (executeNextInstruction 0 (executeNextInstruction 0 sC8)).pixels
      (pixelLoc 0 0 0 0) = true ∧
    (executeNextInstruction 0 (executeNextInstruction 0 sC8)).V 15 = 0 := by
  decide

/-- Witness for C1's amended theorem at the concrete state `sC1`. -/
theorem c1_draw_flat_index_wrap_witness :
    (executeNextInstruction 0 sC1).pixels 64 =
      ((sC1.pixels 64).xor (hits sC1.memory sC1.I
        (reg8 sC1 (mem8 sC1 sC1.pc % 16))
        (reg8 sC1 (mem8 sC1 (sC1.pc + 1) / 16))
        (mem8 sC1 (sC1.pc + 1) % 16) 64)) ∧
    (executeNextInstruction 0 sC1).pc = (sC1.pc + 2) % 65536 :=
  ⟨(c1_draw_flat_index_wrap 0 sC1 (by decide) (by decide) (by decide)).1 64,
   (c1_draw_flat_index_wrap 0 sC1 (by decide) (by decide) (by decide)).2.2⟩

/-- Witness for C8's amended theorem at the concrete state `sC8`. -/
theorem c8_double_draw_restores_witness :
    (executeNextInstruction 0 (executeNextInstruction 0 sC8)).pixels 0 =
      sC8.pixels 0 ∧
    (executeNextInstruction 0 (executeNextInstruction 0 sC8)).V 15 =
      (if collides sC8.memory sC8.I (reg8 sC8 (mem8 sC8 sC8.pc % 16))
          (reg8 sC8 (mem8 sC8 (sC8.pc + 1) / 16)) (mem8 sC8 (sC8.pc + 1) % 16)
          (fun p => !(sC8.pixels p)) then 1 else 0) :=
  ⟨(c8_double_draw_restores 0 0 sC8 (by decide) (by decide) (by decide)
      (by decide) (by decide) (by decide)).1 0,
   (c8_double_draw_restores 0 0 sC8 (by decide) (by decide) (by decide)
      (by decide) (by decide) (by decide)).2⟩

/-- Opcode fetch ignores the compatibility flag. -/
theorem fetchOp_setOld (s : Chip8) (b : Bool) :
    fetchOp { s with old_instructions := b } = fetchOp s := rfl

/-- Memory reads ignore the compatibility flag. -/
theorem mem8_setOld (s : Chip8) (b : Bool) (a : Nat) :
    mem8 { s with old_instructions := b } a = mem8 s a := rfl

/-- Register reads ignore the compatibility flag. -/
theorem reg8_setOld (s : Chip8) (b : Bool) (x : Nat) :
    reg8 { s with old_instructions := b } x = reg8 s x := rfl

/-- Stack reads ignore the compatibility flag. -/
theorem stk16_setOld (s : Chip8) (b : Bool) (i : Nat) :
    stk16 { s with old_instructions := b } i = stk16 s i := rfl

/-- The index register ignores the compatibility flag. -/
theorem I16_setOld (s : Chip8) (b : Bool) :
    I16 { s with old_instructions := b } = I16 s := rfl

/-- A fold whose step commutes with setting the compatibility flag itself
commutes with setting it. -/
theorem foldl_setOld (b : Bool) (f : Chip8 → Nat → Chip8)
    (hf : ∀ t i, f { t with old_instructions := b } i =
      { f t i with old_instructions := b }) :
    ∀ (l : List Nat) (t : Chip8),
      l.foldl f { t with old_instructions := b } =
        { l.foldl f t with old_instructions := b } := by
  intro l
  induction l with
  | nil => intro t; rfl
  | cons a l ih =>
    intro t
    rw [List.foldl_cons, List.foldl_cons, hf, ih]

/-- The draw column step commutes with setting the compatibility flag. -/
theorem drawCol_setOld (X Y r spr c : Nat) (b : Bool) (t : Chip8) :
    drawCol X Y r spr { t with old_instructions := b } c =
      { drawCol X Y r spr t c with old_instructions := b } := by
  unfold drawCol
  simp only [reg8_setOld]
  by_cases hbit : spriteBit spr c
  · simp only [if_pos hbit]
    by_cases hpx : t.pixels (pixelLoc (reg8 t X) (reg8 t Y) r c)
    · simp only [if_pos hpx]
    · simp only [if_neg hpx]
  · simp only [if_neg hbit]

/-- The draw row step commutes with setting the compatibility flag. -/
theorem drawRow_setOld (X Y r : Nat) (b : Bool) (t : Chip8) :
    drawRow X Y { t with old_instructions := b } r =
      { drawRow X Y t r with old_instructions := b } := by
  unfold drawRow
  dsimp only
  rw [mem8_setOld]
  exact foldl_setOld b _ (fun u i => drawCol_setOld X Y r _ i b u) _ t

/-- The whole sprite draw commutes with setting the compatibility flag. -/
theorem drawSprite_setOld (X Y n : Nat) (b : Bool) (t : Chip8) :
    drawSprite X Y n { t with old_instructions := b } =
      { drawSprite X Y n t with old_instructions := b } := by
  unfold drawSprite
  exact foldl_setOld b _ (fun u r => drawRow_setOld X Y r b u) _ t

/-- The `FX0A` key scan commutes with setting the compatibility flag. -/
theorem keyScan_setOld (X : Nat) (b : Bool) (s : Chip8) :
    keyScan X { s with old_instructions := b } =
      ({ (keyScan X s).1 with old_instructions := b }, (keyScan X s).2) := by
  unfold keyScan
  rw [keyScan_char, keyScan_char]
  have hk : ({ s with old_instructions := b } : Chip8).keys_pressed =
      s.keys_pressed := rfl
  rw [hk]
  cases hl : lastPressed s.keys_pressed 16 with
  | none => rfl
  | some m => rfl

/-- The timer decrement commutes with setting the compatibility flag. -/
theorem decrementTimers_setOld (s : Chip8) (b : Bool) :
    decrementTimers { s with old_instructions := b } =
      { decrementTimers s with old_instructions := b } := by
  unfold decrementTimers
  dsimp only
  by_cases hd : s.delay_timer > 0 <;> by_cases hs2 : s.sound_timer > 0 <;>
    simp [hd, hs2]

/-- `drawSprite_setOld` restated at the exact entry state built by the `DXYN`
branch of the dispatch. -/
theorem drawSprite_setOld_entry (X Y n op : Nat) (b : Bool) (s : Chip8) :
    drawSprite X Y n
        { s with old_instructions := b, opcode := op, V := upd s.V 15 0 } =
      { drawSprite X Y n { s with opcode := op, V := upd s.V 15 0 } with
        old_instructions := b } :=
  drawSprite_setOld X Y n b { s with opcode := op, V := upd s.V 15 0 }

/-- `keyScan_setOld` restated at the exact entry state built by the `FX0A`
branch of the dispatch. -/
theorem keyScan_setOld_entry (X op : Nat) (b : Bool) (s : Chip8) :
    keyScan X { s with old_instructions := b, opcode := op } =
      ({ (keyScan X { s with opcode := op }).1 with old_instructions := b },
       (keyScan X { s with opcode := op }).2) :=
  keyScan_setOld X b { s with opcode := op }

/-- The `FX55` store loop commutes with setting the compatibility flag. -/
theorem fold55_setOld_entry (k op : Nat) (b : Bool) (s : Chip8) :
    (List.range k).foldl
        (fun t i => { t with memory := upd t.memory (I16 t + i) (reg8 t i) })
        { s with old_instructions := b, opcode := op } =
      { (List.range k).foldl
          (fun t i => { t with memory := upd t.memory (I16 t + i) (reg8 t i) })
          { s with opcode := op } with old_instructions := b } :=
  foldl_setOld b _ (fun t i => rfl) _ { s with opcode := op }

/-- The `FX65` load loop commutes with setting the compatibility flag. -/
theorem fold65_setOld_entry (k op : Nat) (b : Bool) (s : Chip8) :
    (List.range k).foldl
        (fun t i => { t with V := upd t.V i (mem8 t (I16 t + i)) })
        { s with old_instructions := b, opcode := op } =
      { (List.range k).foldl
          (fun t i => { t with V := upd t.V i (mem8 t (I16 t + i)) })
          { s with opcode := op } with old_instructions := b } :=
  foldl_setOld b _ (fun t i => rfl) _ { s with opcode := op }

set_option maxRecDepth 4000 in
set_option maxHeartbeats 4000000 in
/-- `executeNextInstruction` never consults the `old_instructions` flag: its
result on a state with the flag forced to `b` is the result on the original
state with the flag forced to `b`.  Proved by walking every branch of the
dispatch. -/
theorem exec_setOld (r : Nat) (s : Chip8) (b : Bool) :
    executeNextInstruction r { s with old_instructions := b } =
      { executeNextInstruction r s with old_instructions := b } := by
  unfold executeNextInstruction
  dsimp only
  by_cases h0 : fetchOp s / 4096 = 0
  · rw [if_pos (show fetchOp { s with old_instructions := b } / 4096 = 0 from h0)]
    all_goals (try rw [if_pos h0])
    by_cases hE0 : fetchOp s = 224
    · rw [if_pos (show fetchOp { s with old_instructions := b } = 224 from hE0)]
      all_goals (try rw [if_pos hE0])
      all_goals rfl
    · rw [if_neg (show ¬(fetchOp { s with old_instructions := b } = 224) from hE0)]
      all_goals (try rw [if_neg hE0])
      by_cases hEE : fetchOp s = 238
      · rw [if_pos (show fetchOp { s with old_instructions := b } = 238 from hEE)]
        all_goals (try rw [if_pos hEE])
        all_goals rfl
      · rw [if_neg (show ¬(fetchOp { s with old_instructions := b } = 238) from hEE)]
        all_goals (try rw [if_neg hEE])
        all_goals rfl
  · rw [if_neg (show ¬(fetchOp { s with old_instructions := b } / 4096 = 0) from h0)]
    all_goals (try rw [if_neg h0])
    by_cases h1 : fetchOp s / 4096 = 1
    · rw [if_pos (show fetchOp { s with old_instructions := b } / 4096 = 1 from h1)]
      all_goals (try rw [if_pos h1])
      all_goals rfl
    · rw [if_neg (show ¬(fetchOp { s with old_instructions := b } / 4096 = 1) from h1)]
      all_goals (try rw [if_neg h1])
      by_cases h2 : fetchOp s / 4096 = 2
      · rw [if_pos (show fetchOp { s with old_instructions := b } / 4096 = 2 from h2)]
        all_goals (try rw [if_pos h2])
        all_goals rfl
      · rw [if_neg (show ¬(fetchOp { s with old_instructions := b } / 4096 = 2) from h2)]
        all_goals (try rw [if_neg h2])
        by_cases h3 : fetchOp s / 4096 = 3
        · rw [if_pos (show fetchOp { s with old_instructions := b } / 4096 = 3 from h3)]
          all_goals (try rw [if_pos h3])
          by_cases hC3 : reg8 { s with opcode := fetchOp s } (fetchOp s / 256 % 16) = fetchOp s % 256
          · rw [if_pos (show reg8 { s with old_instructions := b, opcode := fetchOp { s with old_instructions := b } } (fetchOp { s with old_instructions := b } / 256 % 16) = fetchOp { s with old_instructions := b } % 256 from hC3)]
            all_goals (try rw [if_pos hC3])
            all_goals rfl
          · rw [if_neg (show ¬(reg8 { s with old_instructions := b, opcode := fetchOp { s with old_instructions := b } } (fetchOp { s with old_instructions := b } / 256 % 16) = fetchOp { s with old_instructions := b } % 256) from hC3)]
            all_goals (try rw [if_neg hC3])
            all_goals rfl
        · rw [if_neg (show ¬(fetchOp { s with old_instructions := b } / 4096 = 3) from h3)]
          all_goals (try rw [if_neg h3])
          by_cases h4 : fetchOp s / 4096 = 4
          · rw [if_pos (show fetchOp { s with old_instructions := b } / 4096 = 4 from h4)]
            all_goals (try rw [if_pos h4])
            by_cases hC4 : reg8 { s with opcode := fetchOp s } (fetchOp s / 256 % 16) ≠ fetchOp s % 256
            · rw [if_pos (show reg8 { s with old_instructions := b, opcode := fetchOp { s with old_instructions := b } } (fetchOp { s with old_instructions := b } / 256 % 16) ≠ fetchOp { s with old_instructions := b } % 256 from hC4)]
              all_goals (try rw [if_pos hC4])
              all_goals rfl
            · rw [if_neg (show ¬(reg8 { s with old_instructions := b, opcode := fetchOp { s with old_instructions := b } } (fetchOp { s with old_instructions := b } / 256 % 16) ≠ fetchOp { s with old_instructions := b } % 256) from hC4)]
              all_goals (try rw [if_neg hC4])
              all_goals rfl
          · rw [if_neg (show ¬(fetchOp { s with old_instructions := b } / 4096 = 4) from h4)]
            all_goals (try rw [if_neg h4])
            by_cases h5 : fetchOp s / 4096 = 5
            · rw [if_pos (show fetchOp { s with old_instructions := b } / 4096 = 5 from h5)]
              all_goals (try rw [if_pos h5])
              by_cases hC5 : reg8 { s with opcode := fetchOp s } (fetchOp s / 256 % 16) = reg8 { s with opcode := fetchOp s } (fetchOp s / 16 % 16)
              · rw [if_pos (show reg8 { s with old_instructions := b, opcode := fetchOp { s with old_instructions := b } } (fetchOp { s with old_instructions := b } / 256 % 16) = reg8 { s with old_instructions := b, opcode := fetchOp { s with old_instructions := b } } (fetchOp { s with old_instructions := b } / 16 % 16) from hC5)]
                all_goals (try rw [if_pos hC5])
                all_goals rfl
              · rw [if_neg (show ¬(reg8 { s with old_instructions := b, opcode := fetchOp { s with old_instructions := b } } (fetchOp { s with old_instructions := b } / 256 % 16) = reg8 { s with old_instructions := b, opcode := fetchOp { s with old_instructions := b } } (fetchOp { s with old_instructions := b } / 16 % 16)) from hC5)]
                all_goals (try rw [if_neg hC5])
                all_goals rfl
            · rw [if_neg (show ¬(fetchOp { s with old_instructions := b } / 4096 = 5) from h5)]
              all_goals (try rw [if_neg h5])
              by_cases h6 : fetchOp s / 4096 = 6
              · rw [if_pos (show fetchOp { s with old_instructions := b } / 4096 = 6 from h6)]
                all_goals (try rw [if_pos h6])
                all_goals rfl
              · rw [if_neg (show ¬(fetchOp { s with old_instructions := b } / 4096 = 6) from h6)]
                all_goals (try rw [if_neg h6])
                by_cases h7 : fetchOp s / 4096 = 7
                · rw [if_pos (show fetchOp { s with old_instructions := b } / 4096 = 7 from h7)]
                  all_goals (try rw [if_pos h7])
                  all_goals rfl
                · rw [if_neg (show ¬(fetchOp { s with old_instructions := b } / 4096 = 7) from h7)]
                  all_goals (try rw [if_neg h7])
                  by_cases h8 : fetchOp s / 4096 = 8
                  · rw [if_pos (show fetchOp { s with old_instructions := b } / 4096 = 8 from h8)]
                    all_goals (try rw [if_pos h8])
                    by_cases hN0 : fetchOp s % 16 = 0
                    · rw [if_pos (show fetchOp { s with old_instructions := b } % 16 = 0 from hN0)]
                      all_goals (try rw [if_pos hN0])
                      all_goals rfl
                    · rw [if_neg (show ¬(fetchOp { s with old_instructions := b } % 16 = 0) from hN0)]
                      all_goals (try rw [if_neg hN0])
                      by_cases hN1 : fetchOp s % 16 = 1
                      · rw [if_pos (show fetchOp { s with old_instructions := b } % 16 = 1 from hN1)]
                        all_goals (try rw [if_pos hN1])
                        all_goals rfl
                      · rw [if_neg (show ¬(fetchOp { s with old_instructions := b } % 16 = 1) from hN1)]
                        all_goals (try rw [if_neg hN1])
                        by_cases hN2 : fetchOp s % 16 = 2
                        · rw [if_pos (show fetchOp { s with old_instructions := b } % 16 = 2 from hN2)]
                          all_goals (try rw [if_pos hN2])
                          all_goals rfl
                        · rw [if_neg (show ¬(fetchOp { s with old_instructions := b } % 16 = 2) from hN2)]
                          all_goals (try rw [if_neg hN2])
                          by_cases hN3 : fetchOp s % 16 = 3
                          · rw [if_pos (show fetchOp { s with old_instructions := b } % 16 = 3 from hN3)]
                            all_goals (try rw [if_pos hN3])
                            all_goals rfl
                          · rw [if_neg (show ¬(fetchOp { s with old_instructions := b } % 16 = 3) from hN3)]
                            all_goals (try rw [if_neg hN3])
                            by_cases hN4 : fetchOp s % 16 = 4
                            · rw [if_pos (show fetchOp { s with old_instructions := b } % 16 = 4 from hN4)]
                              all_goals (try rw [if_pos hN4])
                              all_goals rfl
                            · rw [if_neg (show ¬(fetchOp { s with old_instructions := b } % 16 = 4) from hN4)]
                              all_goals (try rw [if_neg hN4])
                              by_cases hN5 : fetchOp s % 16 = 5
                              · rw [if_pos (show fetchOp { s with old_instructions := b } % 16 = 5 from hN5)]
                                all_goals (try rw [if_pos hN5])
                                all_goals rfl
                              · rw [if_neg (show ¬(fetchOp { s with old_instructions := b } % 16 = 5) from hN5)]
                                all_goals (try rw [if_neg hN5])
                                by_cases hN6 : fetchOp s % 16 = 6
                                · rw [if_pos (show fetchOp { s with old_instructions := b } % 16 = 6 from hN6)]
                                  all_goals (try rw [if_pos hN6])
                                  all_goals rfl
                                · rw [if_neg (show ¬(fetchOp { s with old_instructions := b } % 16 = 6) from hN6)]
                                  all_goals (try rw [if_neg hN6])
                                  by_cases hN7 : fetchOp s % 16 = 7
                                  · rw [if_pos (show fetchOp { s with old_instructions := b } % 16 = 7 from hN7)]
                                    all_goals (try rw [if_pos hN7])
                                    all_goals rfl
                                  · rw [if_neg (show ¬(fetchOp { s with old_instructions := b } % 16 = 7) from hN7)]
                                    all_goals (try rw [if_neg hN7])
                                    by_cases hN14 : fetchOp s % 16 = 14
                                    · rw [if_pos (show fetchOp { s with old_instructions := b } % 16 = 14 from hN14)]
                                      all_goals (try rw [if_pos hN14])
                                      all_goals rfl
                                    · rw [if_neg (show ¬(fetchOp { s with old_instructions := b } % 16 = 14) from hN14)]
                                      all_goals (try rw [if_neg hN14])
                                      all_goals rfl
                  · rw [if_neg (show ¬(fetchOp { s with old_instructions := b } / 4096 = 8) from h8)]
                    all_goals (try rw [if_neg h8])
                    by_cases h9 : fetchOp s / 4096 = 9
                    · rw [if_pos (show fetchOp { s with old_instructions := b } / 4096 = 9 from h9)]
                      all_goals (try rw [if_pos h9])
                      by_cases hC9 : reg8 { s with opcode := fetchOp s } (fetchOp s / 256 % 16) ≠ reg8 { s with opcode := fetchOp s } (fetchOp s / 16 % 16)
                      · rw [if_pos (show reg8 { s with old_instructions := b, opcode := fetchOp { s with old_instructions := b } } (fetchOp { s with old_instructions := b } / 256 % 16) ≠ reg8 { s with old_instructions := b, opcode := fetchOp { s with old_instructions := b } } (fetchOp { s with old_instructions := b } / 16 % 16) from hC9)]
                        all_goals (try rw [if_pos hC9])
                        all_goals rfl
                      · rw [if_neg (show ¬(reg8 { s with old_instructions := b, opcode := fetchOp { s with old_instructions := b } } (fetchOp { s with old_instructions := b } / 256 % 16) ≠ reg8 { s with old_instructions := b, opcode := fetchOp { s with old_instructions := b } } (fetchOp { s with old_instructions := b } / 16 % 16)) from hC9)]
                        all_goals (try rw [if_neg hC9])
                        all_goals rfl
                    · rw [if_neg (show ¬(fetchOp { s with old_instructions := b } / 4096 = 9) from h9)]
                      all_goals (try rw [if_neg h9])
                      by_cases h10 : fetchOp s / 4096 = 10
                      · rw [if_pos (show fetchOp { s with old_instructions := b } / 4096 = 10 from h10)]
                        all_goals (try rw [if_pos h10])
                        all_goals rfl
                      · rw [if_neg (show ¬(fetchOp { s with old_instructions := b } / 4096 = 10) from h10)]
                        all_goals (try rw [if_neg h10])
                        by_cases h11 : fetchOp s / 4096 = 11
                        · rw [if_pos (show fetchOp { s with old_instructions := b } / 4096 = 11 from h11)]
                          all_goals (try rw [if_pos h11])
                          all_goals rfl
                        · rw [if_neg (show ¬(fetchOp { s with old_instructions := b } / 4096 = 11) from h11)]
                          all_goals (try rw [if_neg h11])
                          by_cases h12 : fetchOp s / 4096 = 12
                          · rw [if_pos (show fetchOp { s with old_instructions := b } / 4096 = 12 from h12)]
                            all_goals (try rw [if_pos h12])
                            all_goals rfl
                          · rw [if_neg (show ¬(fetchOp { s with old_instructions := b } / 4096 = 12) from h12)]
                            all_goals (try rw [if_neg h12])
                            by_cases h13 : fetchOp s / 4096 = 13
                            · rw [if_pos (show fetchOp { s with old_instructions := b } / 4096 = 13 from h13)]
                              all_goals (try rw [if_pos h13])
                              all_goals (try rw [drawSprite_setOld_entry])
                              all_goals rfl
                            · rw [if_neg (show ¬(fetchOp { s with old_instructions := b } / 4096 = 13) from h13)]
                              all_goals (try rw [if_neg h13])
                              by_cases h14 : fetchOp s / 4096 = 14
                              · rw [if_pos (show fetchOp { s with old_instructions := b } / 4096 = 14 from h14)]
                                all_goals (try rw [if_pos h14])
                                by_cases hE9E : fetchOp s % 256 = 158
                                · rw [if_pos (show fetchOp { s with old_instructions := b } % 256 = 158 from hE9E)]
                                  all_goals (try rw [if_pos hE9E])
                                  by_cases hK : s.keys_pressed (reg8 { s with opcode := fetchOp s } (fetchOp s / 256 % 16)) = true
                                  · rw [if_pos (show s.keys_pressed (reg8 { s with old_instructions := b, opcode := fetchOp { s with old_instructions := b } } (fetchOp { s with old_instructions := b } / 256 % 16)) = true from hK)]
                                    all_goals (try rw [if_pos hK])
                                    all_goals rfl
                                  · rw [if_neg (show ¬(s.keys_pressed (reg8 { s with old_instructions := b, opcode := fetchOp { s with old_instructions := b } } (fetchOp { s with old_instructions := b } / 256 % 16)) = true) from hK)]
                                    all_goals (try rw [if_neg hK])
                                    all_goals rfl
                                · rw [if_neg (show ¬(fetchOp { s with old_instructions := b } % 256 = 158) from hE9E)]
                                  all_goals (try rw [if_neg hE9E])
                                  by_cases hEA1 : fetchOp s % 256 = 161
                                  · rw [if_pos (show fetchOp { s with old_instructions := b } % 256 = 161 from hEA1)]
                                    all_goals (try rw [if_pos hEA1])
                                    by_cases hK : s.keys_pressed (reg8 { s with opcode := fetchOp s } (fetchOp s / 256 % 16)) = false
                                    · rw [if_pos (show s.keys_pressed (reg8 { s with old_instructions := b, opcode := fetchOp { s with old_instructions := b } } (fetchOp { s with old_instructions := b } / 256 % 16)) = false from hK)]
                                      all_goals (try rw [if_pos hK])
                                      all_goals rfl
                                    · rw [if_neg (show ¬(s.keys_pressed (reg8 { s with old_instructions := b, opcode := fetchOp { s with old_instructions := b } } (fetchOp { s with old_instructions := b } / 256 % 16)) = false) from hK)]
                                      all_goals (try rw [if_neg hK])
                                      all_goals rfl
                                  · rw [if_neg (show ¬(fetchOp { s with old_instructions := b } % 256 = 161) from hEA1)]
                                    all_goals (try rw [if_neg hEA1])
                                    all_goals rfl
                              · rw [if_neg (show ¬(fetchOp { s with old_instructions := b } / 4096 = 14) from h14)]
                                all_goals (try rw [if_neg h14])
                                by_cases hF07 : fetchOp s % 256 = 7
                                · rw [if_pos (show fetchOp { s with old_instructions := b } % 256 = 7 from hF07)]
                                  all_goals (try rw [if_pos hF07])
                                  all_goals rfl
                                · rw [if_neg (show ¬(fetchOp { s with old_instructions := b } % 256 = 7) from hF07)]
                                  all_goals (try rw [if_neg hF07])
                                  by_cases hF0A : fetchOp s % 256 = 10
                                  · rw [if_pos (show fetchOp { s with old_instructions := b } % 256 = 10 from hF0A)]
                                    all_goals (try rw [if_pos hF0A])
                                    all_goals (try rw [keyScan_setOld_entry])
                                    all_goals dsimp only
                                    by_cases hS : (keyScan (fetchOp s / 256 % 16) { s with opcode := fetchOp s }).2 = true
                                    · rw [if_pos (show (keyScan (fetchOp { s with old_instructions := b } / 256 % 16) { s with opcode := fetchOp { s with old_instructions := b } }).2 = true from hS)]
                                      all_goals (try rw [if_pos hS])
                                      all_goals rfl
                                    · rw [if_neg (show ¬((keyScan (fetchOp { s with old_instructions := b } / 256 % 16) { s with opcode := fetchOp { s with old_instructions := b } }).2 = true) from hS)]
                                      all_goals (try rw [if_neg hS])
                                      all_goals rfl
                                  · rw [if_neg (show ¬(fetchOp { s with old_instructions := b } % 256 = 10) from hF0A)]
                                    all_goals (try rw [if_neg hF0A])
                                    by_cases hF15 : fetchOp s % 256 = 21
                                    · rw [if_pos (show fetchOp { s with old_instructions := b } % 256 = 21 from hF15)]
                                      all_goals (try rw [if_pos hF15])
                                      all_goals rfl
                                    · rw [if_neg (show ¬(fetchOp { s with old_instructions := b } % 256 = 21) from hF15)]
                                      all_goals (try rw [if_neg hF15])
                                      by_cases hF18 : fetchOp s % 256 = 24
                                      · rw [if_pos (show fetchOp { s with old_instructions := b } % 256 = 24 from hF18)]
                                        all_goals (try rw [if_pos hF18])
                                        all_goals rfl
                                      · rw [if_neg (show ¬(fetchOp { s with old_instructions := b } % 256 = 24) from hF18)]
                                        all_goals (try rw [if_neg hF18])
                                        by_cases hF1E : fetchOp s % 256 = 30
                                        · rw [if_pos (show fetchOp { s with old_instructions := b } % 256 = 30 from hF1E)]
                                          all_goals (try rw [if_pos hF1E])
                                          all_goals rfl
                                        · rw [if_neg (show ¬(fetchOp { s with old_instructions := b } % 256 = 30) from hF1E)]
                                          all_goals (try rw [if_neg hF1E])
                                          by_cases hF29 : fetchOp s % 256 = 41
                                          · rw [if_pos (show fetchOp { s with old_instructions := b } % 256 = 41 from hF29)]
                                            all_goals (try rw [if_pos hF29])
                                            all_goals rfl
                                          · rw [if_neg (show ¬(fetchOp { s with old_instructions := b } % 256 = 41) from hF29)]
                                            all_goals (try rw [if_neg hF29])
                                            by_cases hF33 : fetchOp s % 256 = 51
                                            · rw [if_pos (show fetchOp { s with old_instructions := b } % 256 = 51 from hF33)]
                                              all_goals (try rw [if_pos hF33])
                                              all_goals rfl
                                            · rw [if_neg (show ¬(fetchOp { s with old_instructions := b } % 256 = 51) from hF33)]
                                              all_goals (try rw [if_neg hF33])
                                              by_cases hF55 : fetchOp s % 256 = 85
                                              · rw [if_pos (show fetchOp { s with old_instructions := b } % 256 = 85 from hF55)]
                                                all_goals (try rw [if_pos hF55])
                                                all_goals (try rw [fold55_setOld_entry])
                                                all_goals rfl
                                              · rw [if_neg (show ¬(fetchOp { s with old_instructions := b } % 256 = 85) from hF55)]
                                                all_goals (try rw [if_neg hF55])
                                                by_cases hF65 : fetchOp s % 256 = 101
                                                · rw [if_pos (show fetchOp { s with old_instructions := b } % 256 = 101 from hF65)]
                                                  all_goals (try rw [if_pos hF65])
                                                  all_goals (try rw [fold65_setOld_entry])
                                                  all_goals rfl
                                                · rw [if_neg (show ¬(fetchOp { s with old_instructions := b } % 256 = 101) from hF65)]
                                                  all_goals (try rw [if_neg hF65])
                                                  all_goals rfl

/-- C9: the `old_instructions` compatibility flag is declared and settable
but never consulted: `step()` commutes with setting the flag, so two runs
from states that differ only in the flag produce results that are identical
in every field except that each keeps its own flag value. -/
theorem c9_flag_noninterference (r : Nat) (s : Chip8) (b b1 b2 : Bool) :
    step r { s with old_instructions := b } =
      { step r s with old_instructions := b } ∧
    step r { s with old_instructions := b1 } =
      { step r { s with old_instructions := b2 } with
        old_instructions := b1 } := by
  have h : ∀ c : Bool, step r { s with old_instructions := c } =
      { step r s with old_instructions := c } := by
    intro c
    unfold step
    rw [exec_setOld, decrementTimers_setOld]
  exact ⟨h b, by rw [h b1, h b2]⟩
